import Mathlib

/-!
Shallow embedding of the Stellar Voyage space-shooter simulation core
(src/mimi/stellar-voyage-20260215-041113 together with the unnamed parts,
which hold the Projectile.js, Game.js, CollisionDetector.js and Player.js
files of that project), over exact rational arithmetic.

Conventions used throughout:
  - JS numbers are modelled as rationals; integer-valued counters
    (score, lives, enemy health) as integers.
  - Every use of Math.sqrt in the source occurs inside a comparison
    `Math.sqrt s < r` or `Math.sqrt s > r` with `s` a sum of squares.
    For `s ≥ 0` these are equivalent to `0 < r ∧ s < r^2` and to
    `r < 0 ∨ r^2 < s` respectively, which is how `distLt` and `distGt`
    embed them, keeping everything inside ℚ and decidable.
  - Quantities the source draws from Math.random, from Math.sin and
    Math.cos of the heading angle, and from the normalised steering
    vector of `getDirection` (all irrational in general) are supplied
    as explicit inputs (the `Oracle` structure and the direction
    arguments); the surrounding arithmetic is embedded exactly.
  - Mesh, material and scene-graph manipulation (destroy, glow, facing
    rotation of enemies) only touches the rendering collaborator and is
    not part of the simulation state.
-/

/-- Vector with three rational components, the {x, y, z} position and
velocity records of the source. -/
@[ext]
structure Vec3 where
  x : ℚ
  y : ℚ
  z : ℚ
deriving DecidableEq

instance : Inhabited Vec3 := ⟨⟨0, 0, 0⟩⟩

instance : Add Vec3 := ⟨fun a b => ⟨a.x + b.x, a.y + b.y, a.z + b.z⟩⟩

instance : SMul ℚ Vec3 := ⟨fun c v => ⟨c * v.x, c * v.y, c * v.z⟩⟩

/-- Squared distance between two points; `distance` in utils.js is its
square root. -/
def distSq (p q : Vec3) : ℚ :=
  (p.x - q.x) ^ 2 + (p.y - q.y) ^ 2 + (p.z - q.z) ^ 2

/-- Embeds the comparison `distance p q < r` of the source: since the
distance is the square root of the nonnegative `distSq p q`, the
comparison holds exactly when `0 < r` and `distSq p q < r^2`. -/
def distLt (p q : Vec3) (r : ℚ) : Bool :=
  decide (0 < r) && decide (distSq p q < r ^ 2)

/-- Embeds the comparison `dist > r` of the source (`isOffScreen`
checks): for nonnegative `distSq` it holds exactly when `r < 0` or
`r^2 < distSq p q`. -/
def distGt (p q : Vec3) (r : ℚ) : Bool :=
  decide (r < 0) || decide (r ^ 2 < distSq p q)

/-- Projectile.js state: mesh position, velocity (set to 30 times the
firing direction by the constructor) and age; speed 30 and lifetime 5
are fixed. -/
structure Projectile where
  pos : Vec3
  vel : Vec3
  age : ℚ
deriving DecidableEq

instance : Inhabited Projectile := ⟨⟨default, default, 0⟩⟩

/-- Projectile.update: integrate position and advance age. -/
def Projectile.update (dt : ℚ) (p : Projectile) : Projectile :=
  { p with pos := p.pos + dt • p.vel, age := p.age + dt }

/-- Projectile.isAlive: age below the 5 second lifetime. -/
def Projectile.isAlive (p : Projectile) : Bool :=
  decide (p.age < 5)

/-- Projectile.isOffScreen: farther than 500 from the origin. -/
def Projectile.isOffScreen (p : Projectile) : Bool :=
  distGt p.pos ⟨0, 0, 0⟩ 500

/-- Obstacle.js state: position, drift velocity, rotation and rotation
rate (cosmetic), and the random size drawn at construction. -/
structure Obstacle where
  pos : Vec3
  vel : Vec3
  rot : Vec3
  rotVel : Vec3
  size : ℚ
deriving DecidableEq

instance : Inhabited Obstacle := ⟨⟨default, default, default, default, 1⟩⟩

/-- Obstacle.update: drift the position and spin the mesh. -/
def Obstacle.update (dt : ℚ) (o : Obstacle) : Obstacle :=
  { o with pos := o.pos + dt • o.vel, rot := o.rot + dt • o.rotVel }

/-- Obstacle.isOffScreen: farther than 600 from the origin. -/
def Obstacle.isOffScreen (o : Obstacle) : Bool :=
  distGt o.pos ⟨0, 0, 0⟩ 600

/-- Obstacle.getRadius: collision radius is 1.5 times the size. -/
def Obstacle.getRadius (o : Obstacle) : ℚ :=
  o.size * (3 / 2)

/-- Enemy.js state: position, integer health (2 at spawn), behaviour
timer and current behaviour (chase or evade); speed 8 and behaviour
change interval 3 are fixed. -/
structure Enemy where
  pos : Vec3
  health : ℤ
  behaviorTimer : ℚ
  chasing : Bool
deriving DecidableEq

instance : Inhabited Enemy := ⟨⟨default, 2, 0, true⟩⟩

/-- Enemy.update: advance the behaviour timer, re-roll the behaviour
when it passes 3 seconds (the outcome of the Math.random draw is the
`rechase` input), and move by speed 8 times difficulty times dt along
the steering direction. The direction is the getDirection value toward
or away from the player, a normalised vector that is irrational in
general; it is supplied as the `dir` input and only multiplies the
displacement, exactly as in the source. The facing rotation and wing
animation touch only the mesh. -/
def Enemy.update (dt : ℚ) (dir : Vec3) (rechase : Bool) (difficulty : ℚ) (e : Enemy) : Enemy :=
  let t := e.behaviorTimer + dt
  if 3 < t then
    { e with behaviorTimer := 0, chasing := rechase,
             pos := e.pos + (8 * difficulty * dt) • dir }
  else
    { e with behaviorTimer := t,
             pos := e.pos + (8 * difficulty * dt) • dir }

/-- Enemy.takeDamage: subtract the damage from health. -/
def Enemy.takeDamage (damage : ℤ) (e : Enemy) : Enemy :=
  { e with health := e.health - damage }

/-- Enemy.isAlive: health strictly positive. -/
def Enemy.isAlive (e : Enemy) : Bool :=
  decide (0 < e.health)

/-- Keyboard state consumed by Player.update: w/a/s/d/q/e. -/
structure Keys where
  w : Bool
  a : Bool
  s : Bool
  d : Bool
  q : Bool
  e : Bool
deriving DecidableEq

/-- Player.js state: position, velocity, heading rotation, shoot
cooldown, owned projectiles and the key flags. Thrust 30, rotation
speed 2.5, friction 0.92, cooldown maximum 0.2 and the bounds box
(50, 35, 20) are fixed. -/
structure Player where
  pos : Vec3
  vel : Vec3
  rotZ : ℚ
  shootCooldown : ℚ
  projectiles : List Projectile
  keys : Keys
deriving DecidableEq

/-- Player state as built by the constructor: at the origin, at rest,
no cooldown, no projectiles, no keys held. -/
def Player.init : Player :=
  { pos := ⟨0, 0, 0⟩, vel := ⟨0, 0, 0⟩, rotZ := 0, shootCooldown := 0,
    projectiles := [], keys := ⟨false, false, false, false, false, false⟩ }

/-- Clamp of the source: Math.max(lo, Math.min(hi, v)). -/
def clamp (lo hi v : ℚ) : ℚ :=
  max lo (min hi v)

/-- Player.updateProjectiles: update every projectile, then drop the
ones that expired or left the 500 radius. The source visits the array
in reverse index order splicing each dead projectile out; every element
is visited exactly once and the checks are independent, so the result
is the order-preserving filter of the updated list. -/
def Player.updateProjectiles (dt : ℚ) (ps : List Projectile) : List Projectile :=
  (ps.map (Projectile.update dt)).filter (fun pr => pr.isAlive && !pr.isOffScreen)

/-- Player.update: rotate by key input, thrust along the heading,
apply friction multiplicatively, integrate and clamp the position,
advance the cooldown and update the projectiles. The heading direction
(Math.sin and Math.cos of the rotated angle, irrational in general) is
supplied as the inputs `dirx` and `diry` and only multiplies the
thrust term, exactly as in the source. Engine glow and weapon flash
touch only mesh materials. -/
def Player.update (dt dirx diry : ℚ) (p : Player) : Player :=
  let rotZ := p.rotZ + (if p.keys.a then (5 / 2) * dt else 0)
                     - (if p.keys.d then (5 / 2) * dt else 0)
  let vx := p.vel.x + (if p.keys.w then dirx * 30 * dt else 0)
                    - (if p.keys.s then dirx * 30 * dt else 0)
  let vy := p.vel.y + (if p.keys.w then diry * 30 * dt else 0)
                    - (if p.keys.s then diry * 30 * dt else 0)
  let vz := p.vel.z - (if p.keys.q then 30 * dt else 0)
                    + (if p.keys.e then 30 * dt else 0)
  let vel : Vec3 := ⟨vx * (23 / 25), vy * (23 / 25), vz * (23 / 25)⟩
  let pos : Vec3 := ⟨clamp (-50) 50 (p.pos.x + vel.x * dt),
                     clamp (-35) 35 (p.pos.y + vel.y * dt),
                     clamp (-20) 20 (p.pos.z + vel.z * dt)⟩
  let cooldown := if 0 < p.shootCooldown then p.shootCooldown - dt else p.shootCooldown
  { pos := pos, vel := vel, rotZ := rotZ, shootCooldown := cooldown,
    projectiles := Player.updateProjectiles dt p.projectiles, keys := p.keys }

/-- Position lies inside the clamping box of Player.update. -/
def InBounds (v : Vec3) : Prop :=
  -50 ≤ v.x ∧ v.x ≤ 50 ∧ -35 ≤ v.y ∧ v.y ≤ 35 ∧ -20 ≤ v.z ∧ v.z ≤ 20

/-- Collision batch returned by CollisionDetector.checkAllCollisions.
The source records object references together with their array indices;
with immutable lists the index pairs carry the same information, so a
hit is an index pair (projectile index, enemy or obstacle index). -/
structure Collisions where
  projectileEnemyHits : List (ℕ × ℕ)
  projectileObstacleHits : List (ℕ × ℕ)
  playerEnemyCollisions : List ℕ
  playerObstacleCollisions : List ℕ
deriving DecidableEq

/-- Elements of a list paired with their indices, in the reverse order
in which the source for loops visit them. -/
def enumRev (l : List α) : List (ℕ × α) :=
  l.enum.reverse

/-- CollisionDetector.checkProjectileEnemyCollision: distance below the
radius sum 0.3 + 1.2. -/
def checkProjectileEnemyCollision (pr : Projectile) (en : Enemy) : Bool :=
  distLt pr.pos en.pos (3 / 10 + 6 / 5)

/-- CollisionDetector.checkPlayerEnemyCollision: distance below the
radius sum 1.5 + 1.2. -/
def checkPlayerEnemyCollision (pl : Player) (en : Enemy) : Bool :=
  distLt pl.pos en.pos (3 / 2 + 6 / 5)

/-- CollisionDetector.checkPlayerObstacleCollision: distance below
1.5 plus the obstacle radius. -/
def checkPlayerObstacleCollision (pl : Player) (ob : Obstacle) : Bool :=
  distLt pl.pos ob.pos (3 / 2 + ob.getRadius)

/-- CollisionDetector.checkProjectileObstacleCollision: distance below
0.3 plus the obstacle radius. -/
def checkProjectileObstacleCollision (pr : Projectile) (ob : Obstacle) : Bool :=
  distLt pr.pos ob.pos (3 / 10 + ob.getRadius)

/-- CollisionDetector.checkAllCollisions: for every projectile, scanned
in reverse index order, record a hit for every enemy and every obstacle
within collision range, also scanned in reverse index order; then record
one event per enemy and per obstacle touching the player. There is no
break: nothing stops the inner enemy scan after the first match for a
projectile. -/
def checkAllCollisions (pl : Player) (enemies : List Enemy) (obstacles : List Obstacle) :
    Collisions :=
  { projectileEnemyHits :=
      (enumRev pl.projectiles).flatMap (fun ip =>
        (enumRev enemies).filterMap (fun je =>
          if checkProjectileEnemyCollision ip.2 je.2 then some (ip.1, je.1) else none)),
    projectileObstacleHits :=
      (enumRev pl.projectiles).flatMap (fun ip =>
        (enumRev obstacles).filterMap (fun jo =>
          if checkProjectileObstacleCollision ip.2 jo.2 then some (ip.1, jo.1) else none)),
    playerEnemyCollisions :=
      (enumRev enemies).filterMap (fun je =>
        if checkPlayerEnemyCollision pl je.2 then some je.1 else none),
    playerObstacleCollisions :=
      (enumRev obstacles).filterMap (fun jo =>
        if checkPlayerObstacleCollision pl jo.2 then some jo.1 else none) }

/-- Player holding a single projectile at height four on the y axis,
used to exhibit the missing per-projectile break. -/
def cex1Player : Player :=
  { Player.init with projectiles := [⟨⟨0, 4, 0⟩, ⟨0, 30, 0⟩, 1 / 10⟩] }

/-- Enemy sitting exactly on that projectile. -/
def cex1Enemy : Enemy :=
  ⟨⟨0, 4, 0⟩, 2, 0, true⟩

/-- Session phase of Game.js, the gameState string. -/
inductive GState where
  | menu
  | playing
  | gameOver
deriving DecidableEq

/-- Inputs the source draws from Math.random and from trigonometric
functions during one Game.update tick: the player heading direction
(sine and cosine of the rotated angle), one steering direction and one
behaviour re-roll per enemy index, and the random spawn parameters of
the enemy and obstacle that may be created this tick. Supplying them as
inputs keeps every surrounding computation exact. -/
structure Oracle where
  pdirx : ℚ
  pdiry : ℚ
  enemyDir : ℕ → Vec3
  enemyChase : ℕ → Bool
  enemyX : ℚ
  enemyY : ℚ
  obsX : ℚ
  obsY : ℚ
  obsSize : ℚ
  obsVel : Vec3
  obsRot : Vec3
  obsRotVel : Vec3

/-- Oracle with every random input zeroed, for concrete runs. -/
def zeroOracle : Oracle :=
  { pdirx := 0, pdiry := 0, enemyDir := fun _ => ⟨0, 0, 0⟩,
    enemyChase := fun _ => false, enemyX := 0, enemyY := 0,
    obsX := 0, obsY := 0, obsSize := 1, obsVel := ⟨0, 0, 0⟩,
    obsRot := ⟨0, 0, 0⟩, obsRotVel := ⟨0, 0, 0⟩ }

/-- Game.js state: phase, score, lives, level, difficulty, the player
and the entity collections, and the spawn and difficulty timers with
their current intervals. The spawn bounds (radius 40, z = 25) and the
difficulty interval 30 are fixed. -/
structure Game where
  gameState : GState
  score : ℤ
  lives : ℤ
  level : ℤ
  difficulty : ℚ
  player : Option Player
  enemies : List Enemy
  obstacles : List Obstacle
  enemySpawnTimer : ℚ
  enemySpawnInterval : ℚ
  obstacleSpawnTimer : ℚ
  obstacleSpawnInterval : ℚ
  difficultyTimer : ℚ
deriving DecidableEq

/-- Game state as built by the constructor: menu phase, score 0,
lives 3, level 1, difficulty 1, no player, empty collections, zero
timers, spawn intervals 2 and 1.5 seconds. -/
def Game.init : Game :=
  { gameState := .menu, score := 0, lives := 3, level := 1, difficulty := 1,
    player := none, enemies := [], obstacles := [],
    enemySpawnTimer := 0, enemySpawnInterval := 2,
    obstacleSpawnTimer := 0, obstacleSpawnInterval := 3 / 2,
    difficultyTimer := 0 }

/-- Game.cleanup: destroy and drop every enemy, obstacle and the
player (mesh destruction touches only the scene). -/
def Game.cleanup (g : Game) : Game :=
  { g with enemies := [], obstacles := [], player := none }

/-- Game.start: reset score, lives, level, difficulty and the three
timers, clear the collections via cleanup, create a fresh player and
enter the playing phase. The spawn intervals are not reset. -/
def Game.start (g : Game) : Game :=
  let g := { g with score := 0, lives := 3, level := 1, difficulty := 1,
                    difficultyTimer := 0, enemySpawnTimer := 0, obstacleSpawnTimer := 0 }
  let g := g.cleanup
  { g with player := some Player.init, gameState := .playing }

/-- Game.gameOver: enter the game over phase. -/
def Game.gameOver (g : Game) : Game :=
  { g with gameState := .gameOver }

/-- Game.increaseDifficulty: raise difficulty by 0.1, set the level to
its floor, and shorten the spawn intervals toward their floors 0.8 and
0.5. -/
def Game.increaseDifficulty (g : Game) : Game :=
  let d := g.difficulty + 1 / 10
  { g with difficulty := d, level := ⌊d⌋,
           enemySpawnInterval := max (4 / 5) (2 - d * (3 / 20)),
           obstacleSpawnInterval := max (1 / 2) (3 / 2 - d * (1 / 10)) }

/-- Insertion step for sorting a list of indices in descending order. -/
def sortDescInsert (n : ℕ) : List ℕ → List ℕ
  | [] => [n]
  | m :: ms => if m ≤ n then n :: m :: ms else m :: sortDescInsert n ms

/-- Numeric descending sort, the (a, b) => b - a comparator of the
source applied to Array.from of an index Set. -/
def sortDesc (l : List ℕ) : List ℕ :=
  l.foldr sortDescInsert []

/-- Replacement of the element at one index of a list, the effect of
mutating the shared object stored at that array slot. -/
def modifyIdx {α : Type} : List α → ℕ → (α → α) → List α
  | [], _, _ => []
  | x :: xs, 0, f => f x :: xs
  | x :: xs, n + 1, f => x :: modifyIdx xs n f

/-- Game.handleCollisions, acting on the player passed in and on the
session state: run the detector, apply one point of damage to the enemy
of every projectile-enemy hit, splice the hit projectiles out of the
player array (a Set of indices, deduplicated, sorted descending, each
spliced under an existence guard — eraseIdx is the identity out of
range exactly as the guard skips), award 10 points per
projectile-obstacle hit record, splice the hit obstacles out the same
way, and subtract one life per player-enemy and per player-obstacle
collision event. Dead enemies are not removed here. -/
def Game.handleCollisions (pl : Player) (g : Game) : Game :=
  let c := checkAllCollisions pl g.enemies g.obstacles
  let enemies := c.projectileEnemyHits.foldl
    (fun es h => modifyIdx es h.2 (Enemy.takeDamage 1)) g.enemies
  let prIdx := sortDesc ((c.projectileEnemyHits.map Prod.fst
    ++ c.projectileObstacleHits.map Prod.fst).dedup)
  let projectiles := prIdx.foldl (fun ps i => ps.eraseIdx i) pl.projectiles
  let score := g.score + 10 * (c.projectileObstacleHits.length : ℤ)
  let obIdx := sortDesc ((c.projectileObstacleHits.map Prod.snd).dedup)
  let obstacles := obIdx.foldl (fun os i => os.eraseIdx i) g.obstacles
  let lives := g.lives - (c.playerEnemyCollisions.length : ℤ)
                       - (c.playerObstacleCollisions.length : ℤ)
  { g with player := some { pl with projectiles := projectiles },
           enemies := enemies, obstacles := obstacles,
           score := score, lives := lives }

/-- Map over a list with the index of each element, starting at n. -/
def mapIdxFrom {α β : Type} (f : ℕ → α → β) : ℕ → List α → List β
  | _, [] => []
  | n, a :: as => f n a :: mapIdxFrom f (n + 1) as

/-- Enemy section of Game.update: update every enemy against the (already
updated) player position, then remove the dead ones, awarding 100 points
each. The source visits the array in reverse index order splicing each
dead enemy out; every enemy is visited exactly once with the same player
position and difficulty, so the result is the order-preserving filter of
the updated list. -/
def Game.enemyPhase (dt : ℚ) (o : Oracle) (g : Game) : Game :=
  let updated := mapIdxFrom
    (fun i e => Enemy.update dt (o.enemyDir i) (o.enemyChase i) g.difficulty e) 0 g.enemies
  { g with score := g.score + 100 * ((updated.filter (fun e => !e.isAlive)).length : ℤ),
           enemies := updated.filter Enemy.isAlive }

/-- Obstacle section of Game.update: update every obstacle and remove
the off-screen ones (reverse splice loop, equal to a filter). -/
def Game.obstaclePhase (dt : ℚ) (g : Game) : Game :=
  let obstacles := (g.obstacles.map (Obstacle.update dt)).filter (fun ob => !ob.isOffScreen)
  { g with obstacles := obstacles }

/-- Game.spawnEnemy: new enemy at the random x, y and z = 25, health 2,
chase behaviour, zero behaviour timer. -/
def Game.spawnEnemy (o : Oracle) : Enemy :=
  { pos := ⟨o.enemyX, o.enemyY, 25⟩, health := 2, behaviorTimer := 0, chasing := true }

/-- Game.spawnObstacle: new obstacle at the random x, y and z = 25 with
the random size, drift velocity and rotation drawn at construction. -/
def Game.spawnObstacle (o : Oracle) : Obstacle :=
  { pos := ⟨o.obsX, o.obsY, 25⟩, vel := o.obsVel, rot := o.obsRot,
    rotVel := o.obsRotVel, size := o.obsSize }

/-- Spawn section of Game.update: accumulate dt into each spawn timer
and, when a timer exceeds its interval, append one new entity and reset
that timer to zero. -/
def Game.spawnPhase (dt : ℚ) (o : Oracle) (g : Game) : Game :=
  let et := g.enemySpawnTimer + dt
  let g := if g.enemySpawnInterval < et then
      { g with enemies := g.enemies ++ [Game.spawnEnemy o], enemySpawnTimer := 0 }
    else { g with enemySpawnTimer := et }
  let ot := g.obstacleSpawnTimer + dt
  if g.obstacleSpawnInterval < ot then
    { g with obstacles := g.obstacles ++ [Game.spawnObstacle o], obstacleSpawnTimer := 0 }
  else { g with obstacleSpawnTimer := ot }

/-- Difficulty section of Game.update: accumulate dt and, past the 30
second interval, increase difficulty and reset the timer. -/
def Game.difficultyPhase (dt : ℚ) (g : Game) : Game :=
  let t := g.difficultyTimer + dt
  if 30 < t then { Game.increaseDifficulty g with difficultyTimer := 0 }
  else { g with difficultyTimer := t }

/-- End of Game.update: enter the game over phase when lives have
reached zero or less. -/
def Game.endCheck (g : Game) : Game :=
  if g.lives ≤ 0 then Game.gameOver g else g

/-- Game.update: a no-op outside the playing phase or without a player;
otherwise update the player, run the enemy and obstacle sections,
resolve collisions, run the spawn and difficulty timers, and finish
with the game over check — in exactly the order of the source. -/
def Game.update (dt : ℚ) (o : Oracle) (g : Game) : Game :=
  if g.gameState ≠ GState.playing then g
  else
    match g.player with
    | none => g
    | some pl =>
      Game.endCheck
        (Game.difficultyPhase dt
          (Game.spawnPhase dt o
            (Game.handleCollisions (Player.update dt o.pdirx o.pdiry pl)
              (Game.obstaclePhase dt (Game.enemyPhase dt o g)))))

/-- Number of enemies whose distance check against the player passes. -/
def countTouchingEnemies (pl : Player) (es : List Enemy) : ℕ :=
  (es.filter (fun e => checkPlayerEnemyCollision pl e)).length

/-- Number of obstacles whose distance check against the player passes. -/
def countTouchingObstacles (pl : Player) (os : List Obstacle) : ℕ :=
  (os.filter (fun ob => checkPlayerObstacleCollision pl ob)).length

/-- Enemy at the origin, placed on the player for the C2 counterexample. -/
def cex2Enemy : Enemy :=
  ⟨⟨0, 0, 0⟩, 2, 0, true⟩

/-- Playing session with one life and two enemies on the player. -/
def cex2Game : Game :=
  { Game.init with gameState := .playing, player := some Player.init,
                   lives := 1, enemies := [cex2Enemy, cex2Enemy] }

/-- Player who has fired one projectile that sits at height four. -/
def cex3Player : Player :=
  { Player.init with projectiles := [⟨⟨0, 4, 0⟩, ⟨0, 30, 0⟩, 1 / 10⟩] }

/-- Enemy on that projectile, one hit from death. -/
def cex3Enemy : Enemy :=
  ⟨⟨0, 4, 0⟩, 1, 0, true⟩

/-- Playing session in which this tick will bring the enemy to zero
health. -/
def cex3Game : Game :=
  { Game.init with gameState := .playing, player := some cex3Player,
                   enemies := [cex3Enemy] }

/-- Playing session with a single healthy enemy at an arbitrary
position, used to show that no world bound ever removes an enemy. -/
def cex5Game (pE : Vec3) : Game :=
  { Game.init with gameState := .playing, player := some Player.init,
                   enemies := [⟨pE, 2, 0, true⟩] }

/-- Playing session with a single obstacle at an arbitrary position. -/
def cex5ObsGame (pO : Vec3) : Game :=
  { Game.init with gameState := .playing, player := some Player.init,
                   obstacles := [⟨pO, ⟨0, 0, 0⟩, ⟨0, 0, 0⟩, ⟨0, 0, 0⟩, 1⟩] }

/-- Key state with only forward thrust held. -/
def wOnlyKeys : Keys :=
  ⟨true, false, false, false, false, false⟩

/-- Player state after n updates with fixed dt and heading direction. -/
def thrustIter (dt dx dy : ℚ) (p : Player) : ℕ → Player
  | 0 => p
  | n + 1 => Player.update dt dx dy (thrustIter dt dx dy p n)

/-- Constructor-fresh player holding the forward-thrust key. -/
def c8Player : Player :=
  { Player.init with keys := wOnlyKeys }

@[simp] theorem Vec3.add_x (a b : Vec3) : (a + b).x = a.x + b.x := rfl

@[simp] theorem Vec3.add_y (a b : Vec3) : (a + b).y = a.y + b.y := rfl

@[simp] theorem Vec3.add_z (a b : Vec3) : (a + b).z = a.z + b.z := rfl

@[simp] theorem Vec3.smul_x (c : ℚ) (v : Vec3) : (c • v).x = c * v.x := rfl

@[simp] theorem Vec3.smul_y (c : ℚ) (v : Vec3) : (c • v).y = c * v.y := rfl

@[simp] theorem Vec3.smul_z (c : ℚ) (v : Vec3) : (c • v).z = c * v.z := rfl

@[simp] theorem Vec3.add_def (a b : Vec3) :
    a + b = ⟨a.x + b.x, a.y + b.y, a.z + b.z⟩ := rfl

@[simp] theorem Vec3.smul_def (c : ℚ) (v : Vec3) :
    c • v = ⟨c * v.x, c * v.y, c * v.z⟩ := rfl


/-- C4 counterexample: the claim says every entity keeps position and
velocity unchanged under update with dt = 0, but Player.update applies
the friction factor 0.92 to the velocity unconditionally, so a moving
player changes velocity even in a zero length tick. -/
theorem claim4_counterexample :
    (Player.update 0 0 1 { Player.init with vel := ⟨1, 0, 0⟩ }).vel ≠
      (⟨1, 0, 0⟩ : Vec3) := by
  intro h
  have hx := congrArg Vec3.x h
  norm_num [Player.update, Player.init, clamp] at hx

/-- C4 amended: with dt = 0, Projectile.update and Obstacle.update keep
position and velocity, Enemy.update keeps position (an enemy stores no
velocity), and Player.update keeps the position when it lies inside the
bounds box, but multiplies the velocity by the friction factor 0.92, so
the player velocity is preserved only when it is zero. -/
theorem claim4_amended (pr : Projectile) (ob : Obstacle) (en : Enemy)
    (dir : Vec3) (rc : Bool) (df : ℚ) (p : Player) (dx dy : ℚ)
    (hp : InBounds p.pos) :
    (Projectile.update 0 pr).pos = pr.pos ∧
    (Projectile.update 0 pr).vel = pr.vel ∧
    (Obstacle.update 0 ob).pos = ob.pos ∧
    (Obstacle.update 0 ob).vel = ob.vel ∧
    (Enemy.update 0 dir rc df en).pos = en.pos ∧
    (Player.update 0 dx dy p).pos = p.pos ∧
    (Player.update 0 dx dy p).vel = (23 / 25 : ℚ) • p.vel := by
  obtain ⟨h1, h2, h3, h4, h5, h6⟩ := hp
  refine ⟨?_, rfl, ?_, rfl, ?_, ?_, ?_⟩
  · ext <;> simp [Projectile.update]
  · ext <;> simp [Obstacle.update]
  · simp only [Enemy.update]
    split <;> ext <;> simp
  · unfold Player.update clamp
    ext <;> simp <;> [skip; skip; skip] <;> ring_nf
    · rw [min_eq_right h2, max_eq_right h1]
    · rw [min_eq_right h4, max_eq_right h3]
    · rw [min_eq_right h6, max_eq_right h5]
  · unfold Player.update
    ext <;> simp [mul_comm]

/-- C4 amended witness at a concrete in-bounds player. -/
theorem claim4_witness :
    (Projectile.update 0 default).pos = (default : Projectile).pos ∧
    (Projectile.update 0 default).vel = (default : Projectile).vel ∧
    (Obstacle.update 0 default).pos = (default : Obstacle).pos ∧
    (Obstacle.update 0 default).vel = (default : Obstacle).vel ∧
    (Enemy.update 0 ⟨1, 0, 0⟩ false 1 default).pos = (default : Enemy).pos ∧
    (Player.update 0 0 1 { Player.init with vel := ⟨1, 2, 3⟩ }).pos =
      ({ Player.init with vel := ⟨1, 2, 3⟩ } : Player).pos ∧
    (Player.update 0 0 1 { Player.init with vel := ⟨1, 2, 3⟩ }).vel =
      (23 / 25 : ℚ) • ({ Player.init with vel := ⟨1, 2, 3⟩ } : Player).vel :=
  claim4_amended default default default ⟨1, 0, 0⟩ false 1
    { Player.init with vel := ⟨1, 2, 3⟩ } 0 1
    (by norm_num [InBounds, Player.init])

/-- C1 counterexample: one projectile overlaps two enemies, and
checkAllCollisions reports two projectile-enemy hits for that single
projectile in the same tick, not exactly one; the claimed break after
the first match per projectile does not exist in this detector. -/
theorem claim1_counterexample :
    (checkAllCollisions cex1Player [cex1Enemy, cex1Enemy] []).projectileEnemyHits =
      [(0, 1), (0, 0)] ∧
    checkProjectileEnemyCollision ⟨⟨0, 4, 0⟩, ⟨0, 30, 0⟩, 1 / 10⟩ cex1Enemy = true := by
  constructor
  · norm_num [checkAllCollisions, cex1Player, cex1Enemy, Player.init, enumRev,
      List.enum, List.enumFrom, List.filterMap_cons, checkProjectileEnemyCollision,
      distLt, distSq]
  · norm_num [checkProjectileEnemyCollision, cex1Enemy, distLt, distSq]

/-- Helper for the C1 theorem: membership in the projectile-enemy hit
list is exactly an in-range overlapping pair. -/
theorem mem_projectileEnemyHits (pl : Player) (es : List Enemy) (os : List Obstacle)
    (i j : ℕ) :
    (i, j) ∈ (checkAllCollisions pl es os).projectileEnemyHits ↔
      (∃ pr en, pl.projectiles[i]? = some pr ∧ es[j]? = some en ∧
        checkProjectileEnemyCollision pr en = true) := by
  simp only [checkAllCollisions, enumRev, List.mem_flatMap, List.mem_filterMap,
    List.mem_reverse]
  constructor
  · rintro ⟨⟨a, pr⟩, ha, ⟨b, en⟩, hb, hab⟩
    rw [List.mk_mem_enum_iff_getElem?] at ha hb
    by_cases hc : checkProjectileEnemyCollision pr en = true
    · simp only [hc, if_true, Option.some.injEq, Prod.mk.injEq] at hab
      exact ⟨pr, en, hab.1 ▸ ha, hab.2 ▸ hb, hc⟩
    · simp only [Bool.not_eq_true] at hc
      simp [hc] at hab
  · rintro ⟨pr, en, hi, hj, hc⟩
    refine ⟨(i, pr), ?_, (j, en), ?_, by simp [hc]⟩
    · exact List.mk_mem_enum_iff_getElem?.2 hi
    · exact List.mk_mem_enum_iff_getElem?.2 hj

/-- Helper for the C1 theorem: the inner filterMap over an index-tagged
list with distinct indices produces no duplicate hits. -/
theorem nodup_filterMap_hits {α : Type} (L : List (ℕ × α)) (k : ℕ) (p : α → Bool)
    (hL : (L.map Prod.fst).Nodup) :
    (L.filterMap (fun je => if p je.2 then some (k, je.1) else none)).Nodup := by
  induction L with
  | nil => simp
  | cons hd tl ih =>
    simp only [List.map_cons, List.nodup_cons] at hL
    have htl := ih hL.2
    simp only [List.filterMap_cons]
    by_cases hc : p hd.2 = true
    · simp only [hc, if_true]
      refine List.nodup_cons.2 ⟨?_, htl⟩
      intro hmem
      obtain ⟨⟨b, x⟩, hbx, hfx⟩ := List.mem_filterMap.1 hmem
      by_cases hpx : p x = true
      · simp only [hpx, if_true, Option.some.injEq, Prod.mk.injEq] at hfx
        exact hL.1 (hfx.2 ▸ List.mem_map_of_mem Prod.fst hbx)
      · simp only [Bool.not_eq_true] at hpx
        simp [hpx] at hfx
    · simp only [Bool.not_eq_true] at hc
      simp only [hc]
      simpa using htl

/-- C1 amended: checkAllCollisions reports exactly one projectile-enemy
hit per overlapping (projectile, enemy) pair, so a projectile that
overlaps k enemies in a tick produces k hits for that projectile — at
least one, but more than one when several enemies overlap it. The pair
(i, j) is reported exactly when both indices are in range and the
distance check passes, and no pair is ever reported twice. The break
after the first match per projectile exists only in the Babylon variant
updateGame loop, not in CollisionDetector.checkAllCollisions. -/
theorem claim1_amended (pl : Player) (es : List Enemy) (os : List Obstacle) (i j : ℕ) :
    ((i, j) ∈ (checkAllCollisions pl es os).projectileEnemyHits ↔
      (∃ pr en, pl.projectiles[i]? = some pr ∧ es[j]? = some en ∧
        checkProjectileEnemyCollision pr en = true)) ∧
    (checkAllCollisions pl es os).projectileEnemyHits.Nodup := by
  refine ⟨mem_projectileEnemyHits pl es os i j, ?_⟩
  simp only [checkAllCollisions]
  refine List.nodup_flatMap.2 ⟨?_, ?_⟩
  · intro ip _
    refine nodup_filterMap_hits es.enum.reverse ip.1 (checkProjectileEnemyCollision ip.2) ?_
    rw [List.map_reverse]
    exact List.nodup_reverse.2 (List.nodup_enum_map_fst es)
  · have hfst : (List.map Prod.fst (enumRev pl.projectiles)).Nodup := by
      rw [enumRev, List.map_reverse]
      exact List.nodup_reverse.2 (List.nodup_enum_map_fst pl.projectiles)
    rw [List.Nodup, List.pairwise_map] at hfst
    refine hfst.imp ?_
    intro a b hab
    rw [Function.onFun, List.disjoint_left]
    rintro ⟨x, y⟩ hxa hxb
    obtain ⟨u, _, hu⟩ := List.mem_filterMap.1 hxa
    obtain ⟨v, _, hv⟩ := List.mem_filterMap.1 hxb
    by_cases hcu : checkProjectileEnemyCollision a.2 u.2 = true
    · by_cases hcv : checkProjectileEnemyCollision b.2 v.2 = true
      · simp only [hcu, hcv, if_true, Option.some.injEq, Prod.mk.injEq] at hu hv
        exact hab (hu.1.trans hv.1.symm)
      · simp only [Bool.not_eq_true] at hcv
        simp [hcv] at hv
    · simp only [Bool.not_eq_true] at hcu
      simp [hcu] at hu

/-- C9: Game.start resets score, lives, difficulty and all three
timers, but leaves enemySpawnInterval and obstacleSpawnInterval exactly
as they were; a session restarted after increaseDifficulty shortened
them therefore begins with 1.835 and 1.39 seconds rather than the
construction-time 2 and 1.5 seconds. -/
theorem claim9_intervals_survive_start (g : Game) :
    (Game.start g).enemySpawnInterval = g.enemySpawnInterval ∧
    (Game.start g).obstacleSpawnInterval = g.obstacleSpawnInterval ∧
    (Game.start g).score = 0 ∧ (Game.start g).lives = 3 ∧
    (Game.start g).difficulty = 1 ∧
    (Game.start g).enemySpawnTimer = 0 ∧ (Game.start g).obstacleSpawnTimer = 0 ∧
    (Game.start g).difficultyTimer = 0 ∧
    Game.init.enemySpawnInterval = 2 ∧ Game.init.obstacleSpawnInterval = 3 / 2 ∧
    (Game.start (Game.increaseDifficulty Game.init)).enemySpawnInterval = 367 / 200 ∧
    (Game.start (Game.increaseDifficulty Game.init)).obstacleSpawnInterval = 139 / 100 := by
  refine ⟨rfl, rfl, rfl, rfl, rfl, rfl, rfl, rfl, rfl, rfl, ?_, ?_⟩
  · show max (4 / 5) (2 - (1 + 1 / 10) * (3 / 20)) = (367 / 200 : ℚ)
    norm_num
  · show max (1 / 2) (3 / 2 - (1 + 1 / 10) * (1 / 10)) = (139 / 100 : ℚ)
    norm_num

/-- C7: calling start from the game over phase restores score 0,
lives 3, difficulty 1, empty enemy, obstacle and projectile
collections, a fresh player, and the playing phase. -/
theorem claim7_start_round_trip (g : Game) (h : g.gameState = GState.gameOver) :
    (Game.start g).score = 0 ∧ (Game.start g).lives = 3 ∧
    (Game.start g).difficulty = 1 ∧ (Game.start g).enemies = [] ∧
    (Game.start g).obstacles = [] ∧ (Game.start g).player = some Player.init ∧
    Player.init.projectiles = [] ∧ (Game.start g).gameState = GState.playing :=
  ⟨rfl, rfl, rfl, rfl, rfl, rfl, rfl, rfl⟩

/-- C7 witness at a concrete game over session. -/
theorem claim7_witness :
    (Game.start { Game.init with gameState := .gameOver }).score = 0 ∧
    (Game.start { Game.init with gameState := .gameOver }).lives = 3 ∧
    (Game.start { Game.init with gameState := .gameOver }).difficulty = 1 ∧
    (Game.start { Game.init with gameState := .gameOver }).enemies = [] ∧
    (Game.start { Game.init with gameState := .gameOver }).obstacles = [] ∧
    (Game.start { Game.init with gameState := .gameOver }).player = some Player.init ∧
    Player.init.projectiles = [] ∧
    (Game.start { Game.init with gameState := .gameOver }).gameState = GState.playing :=
  claim7_start_round_trip { Game.init with gameState := .gameOver } rfl

/-- Score is not decreased by collision handling. -/
theorem score_le_handleCollisions (pl : Player) (g : Game) :
    g.score ≤ (Game.handleCollisions pl g).score := by
  simp only [Game.handleCollisions]
  exact le_add_of_nonneg_right (by positivity)

/-- Score is not decreased by the enemy section. -/
theorem score_le_enemyPhase (dt : ℚ) (o : Oracle) (g : Game) :
    g.score ≤ (Game.enemyPhase dt o g).score := by
  simp only [Game.enemyPhase]
  exact le_add_of_nonneg_right (by positivity)

/-- The obstacle section leaves the score unchanged. -/
theorem score_obstaclePhase (dt : ℚ) (g : Game) :
    (Game.obstaclePhase dt g).score = g.score := rfl

/-- The spawn section leaves the score unchanged. -/
theorem score_spawnPhase (dt : ℚ) (o : Oracle) (g : Game) :
    (Game.spawnPhase dt o g).score = g.score := by
  simp only [Game.spawnPhase]
  split <;> split <;> rfl

/-- The difficulty section leaves the score unchanged. -/
theorem score_difficultyPhase (dt : ℚ) (g : Game) :
    (Game.difficultyPhase dt g).score = g.score := by
  simp only [Game.difficultyPhase, Game.increaseDifficulty]
  split <;> rfl

/-- The game over check leaves the score unchanged. -/
theorem score_endCheck (g : Game) :
    (Game.endCheck g).score = g.score := by
  simp only [Game.endCheck, Game.gameOver]
  split <;> rfl

/-- C10: the score never decreases across a tick of Game.update (each
tick adds 100 per enemy removed dead and 10 per projectile-obstacle hit
record and nothing ever subtracts), gameOver leaves the score alone,
and start is the only operation that returns it to 0. -/
theorem claim10_score_monotone (g : Game) (dt : ℚ) (o : Oracle) :
    g.score ≤ (Game.update dt o g).score ∧
    (Game.gameOver g).score = g.score ∧
    (Game.start g).score = 0 := by
  refine ⟨?_, rfl, rfl⟩
  rw [Game.update]
  split
  · exact le_refl _
  · match hp : g.player with
    | none => exact le_refl _
    | some pl =>
      calc g.score
          ≤ (Game.enemyPhase dt o g).score := score_le_enemyPhase dt o g
        _ = (Game.obstaclePhase dt (Game.enemyPhase dt o g)).score :=
            (score_obstaclePhase _ _).symm
        _ ≤ (Game.handleCollisions (Player.update dt o.pdirx o.pdiry pl)
              (Game.obstaclePhase dt (Game.enemyPhase dt o g))).score :=
            score_le_handleCollisions _ _
        _ = _ := by rw [score_endCheck, score_difficultyPhase, score_spawnPhase]

/-- The game over check sends any session with nonpositive lives to the
game over phase and leaves a playing session only when lives are
positive. -/
theorem endCheck_lives_phase (g : Game) :
    ((Game.endCheck g).lives ≤ 0 → (Game.endCheck g).gameState = GState.gameOver) ∧
    ((Game.endCheck g).gameState = GState.playing → 0 < (Game.endCheck g).lives) := by
  rw [Game.endCheck]
  split
  · exact ⟨fun _ => rfl, fun h => by simp [Game.gameOver] at h⟩
  · exact ⟨fun h => absurd h (by omega), fun _ => by omega⟩

/-- C6: whenever a tick of Game.update completes with lives at or below
zero, the phase is game over at the end of that same tick, and a
session still in the playing phase after a tick always has positive
lives. The end-of-update check runs after every section that can change
lives, so the transition is never deferred. -/
theorem claim6_game_over_same_tick (g : Game) (dt : ℚ) (o : Oracle) (pl : Player)
    (h1 : g.gameState = GState.playing) (h2 : g.player = some pl) :
    ((Game.update dt o g).lives ≤ 0 →
      (Game.update dt o g).gameState = GState.gameOver) ∧
    ((Game.update dt o g).gameState = GState.playing →
      0 < (Game.update dt o g).lives) := by
  rw [Game.update, if_neg (by simp [h1]), h2]
  exact endCheck_lives_phase _

/-- C6 witness at a concrete playing session. -/
theorem claim6_witness :
    ((Game.update 0 zeroOracle cex2Game).lives ≤ 0 →
      (Game.update 0 zeroOracle cex2Game).gameState = GState.gameOver) ∧
    ((Game.update 0 zeroOracle cex2Game).gameState = GState.playing →
      0 < (Game.update 0 zeroOracle cex2Game).lives) :=
  claim6_game_over_same_tick cex2Game 0 zeroOracle Player.init rfl rfl

/-- Helper: the index filterMap over an index-tagged suffix counts the
elements that pass the check. -/
theorem length_filterMap_enumFrom {α : Type} (p : α → Bool) (es : List α) (n : ℕ) :
    ((es.enumFrom n).filterMap
      (fun je => if p je.2 then some je.1 else none)).length =
      (es.filter p).length := by
  induction es generalizing n with
  | nil => rfl
  | cons hd tl ih =>
    simp only [List.enumFrom, List.filterMap_cons, List.filter_cons]
    by_cases hc : p hd = true
    · simp [hc, ih (n + 1)]
    · simp only [Bool.not_eq_true] at hc
      simp [hc, ih (n + 1)]

/-- Helper: the reverse-order player collision scans of the detector
count exactly the entities whose distance check passes. -/
theorem length_filterMap_enumRev {α : Type} (p : α → Bool) (es : List α) :
    ((enumRev es).filterMap
      (fun je => if p je.2 then some je.1 else none)).length =
      (es.filter p).length := by
  rw [enumRev, List.filterMap_reverse, List.length_reverse, List.enum]
  exact length_filterMap_enumFrom p es 0

/-- C2 amended: in collision handling the lives counter decreases by
exactly one for every enemy and every obstacle whose distance check
against the player passes, with no per-tick cap — but there is no floor
at zero: nothing clamps the counter, so simultaneous touches can push
it below zero (the game over check fires at lives at or below zero at
the end of the tick). -/
theorem claim2_amended (pl : Player) (g : Game) :
    (Game.handleCollisions pl g).lives =
      g.lives - (countTouchingEnemies pl g.enemies : ℤ)
              - (countTouchingObstacles pl g.obstacles : ℤ) := by
  simp only [Game.handleCollisions, checkAllCollisions, countTouchingEnemies,
    countTouchingObstacles]
  rw [length_filterMap_enumRev, length_filterMap_enumRev]

/-- Helper: replacing one element preserves the length of a list. -/
theorem length_modifyIdx {α : Type} (l : List α) (i : ℕ) (f : α → α) :
    (modifyIdx l i f).length = l.length := by
  induction l generalizing i with
  | nil => rfl
  | cons hd tl ih =>
    cases i with
    | zero => rfl
    | succ n => simpa [modifyIdx] using ih n

/-- Helper: folding damage over the hit list preserves the length of
the enemy collection. -/
theorem length_foldl_damage (hits : List (ℕ × ℕ)) (es : List Enemy) :
    (hits.foldl (fun es h => modifyIdx es h.2 (Enemy.takeDamage 1)) es).length =
      es.length := by
  induction hits generalizing es with
  | nil => rfl
  | cons hd tl ih => rw [List.foldl_cons, ih, length_modifyIdx]

/-- Helper: the insertion step of the descending sort permutes its
input. -/
theorem sortDescInsert_perm (n : ℕ) (l : List ℕ) :
    (sortDescInsert n l).Perm (n :: l) := by
  induction l with
  | nil => exact List.Perm.refl _
  | cons m ms ih =>
    rw [sortDescInsert]
    by_cases h : m ≤ n
    · simp [h]
    · simp only [h, if_false]
      exact (ih.cons m).trans (List.Perm.swap n m ms)

/-- Helper: the descending sort permutes its input. -/
theorem sortDesc_perm (l : List ℕ) : (sortDesc l).Perm l := by
  induction l with
  | nil => exact List.Perm.refl _
  | cons m ms ih =>
    exact (sortDescInsert_perm m (sortDesc ms)).trans (ih.cons m)

/-- Helper: inserting into a descending-sorted list keeps it sorted. -/
theorem sortDescInsert_sorted (n : ℕ) (l : List ℕ)
    (h : l.Pairwise (fun a b => b ≤ a)) :
    (sortDescInsert n l).Pairwise (fun a b => b ≤ a) := by
  induction l with
  | nil => simp [sortDescInsert]
  | cons m ms ih =>
    rw [List.pairwise_cons] at h
    rw [sortDescInsert]
    by_cases hc : m ≤ n
    · rw [if_pos hc]
      refine List.pairwise_cons.2 ⟨?_, List.pairwise_cons.2 h⟩
      intro b hb
      rcases List.mem_cons.1 hb with rfl | hb
      · exact hc
      · exact (h.1 b hb).trans hc
    · rw [if_neg hc]
      refine List.pairwise_cons.2 ⟨?_, ih h.2⟩
      intro b hb
      rcases List.mem_cons.1 ((sortDescInsert_perm n ms).mem_iff.1 hb) with rfl | hb
      · exact le_of_not_le hc
      · exact h.1 b hb

/-- Helper: the descending sort is sorted. -/
theorem sortDesc_sorted (l : List ℕ) :
    (sortDesc l).Pairwise (fun a b => b ≤ a) := by
  induction l with
  | nil => simp [sortDesc]
  | cons m ms ih => exact sortDescInsert_sorted m (sortDesc ms) ih

/-- Helper: sorting a duplicate-free index list descending yields a
strictly descending list. -/
theorem sortDesc_strict (l : List ℕ) (h : l.Nodup) :
    (sortDesc l).Pairwise (· > ·) := by
  have hs := sortDesc_sorted l
  have hn : (sortDesc l).Nodup := ((sortDesc_perm l).nodup_iff).2 h
  exact (List.Pairwise.and hs hn).imp (fun hab => lt_of_le_of_ne hab.1 (Ne.symm hab.2))

/-- Helper: splicing a strictly descending list of in-range indices out
of an array removes exactly one element per index — the semantics of
the descending-order splice loops of handleCollisions. -/
theorem length_foldl_eraseIdx {α : Type} (is : List ℕ) (xs : List α)
    (hs : is.Pairwise (· > ·)) (hin : ∀ i ∈ is, i < xs.length) :
    (is.foldl (fun ps i => ps.eraseIdx i) xs).length = xs.length - is.length := by
  induction is generalizing xs with
  | nil => rfl
  | cons i tl ih =>
    rw [List.pairwise_cons] at hs
    have hi : i < xs.length := hin i (List.mem_cons_self i tl)
    have hlen : (xs.eraseIdx i).length = xs.length - 1 := List.length_eraseIdx_of_lt hi
    have hin' : ∀ j ∈ tl, j < (xs.eraseIdx i).length := by
      intro j hj
      rw [hlen]
      have hji : j < i := hs.1 j hj
      omega
    rw [List.foldl_cons, ih (xs.eraseIdx i) hs.2 hin', hlen, List.length_cons]
    omega

/-- Helper for C3: membership in the projectile-obstacle hit list is
exactly an in-range overlapping pair. -/
theorem mem_projectileObstacleHits (pl : Player) (es : List Enemy) (os : List Obstacle)
    (i j : ℕ) :
    (i, j) ∈ (checkAllCollisions pl es os).projectileObstacleHits ↔
      (∃ pr ob, pl.projectiles[i]? = some pr ∧ os[j]? = some ob ∧
        checkProjectileObstacleCollision pr ob = true) := by
  simp only [checkAllCollisions, enumRev, List.mem_flatMap, List.mem_filterMap,
    List.mem_reverse]
  constructor
  · rintro ⟨⟨a, pr⟩, ha, ⟨b, ob⟩, hb, hab⟩
    rw [List.mk_mem_enum_iff_getElem?] at ha hb
    by_cases hc : checkProjectileObstacleCollision pr ob = true
    · simp only [hc, if_true, Option.some.injEq, Prod.mk.injEq] at hab
      exact ⟨pr, ob, hab.1 ▸ ha, hab.2 ▸ hb, hc⟩
    · simp only [Bool.not_eq_true] at hc
      simp [hc] at hab
  · rintro ⟨pr, ob, hi, hj, hc⟩
    refine ⟨(i, pr), ?_, (j, ob), ?_, by simp [hc]⟩
    · exact List.mk_mem_enum_iff_getElem?.2 hi
    · exact List.mk_mem_enum_iff_getElem?.2 hj

/-- Helper for C3: every projectile index recorded in the hit lists is
in range of the projectile array. -/
theorem hit_projectile_idx_lt (pl : Player) (g : Game) :
    ∀ i ∈ ((checkAllCollisions pl g.enemies g.obstacles).projectileEnemyHits.map Prod.fst
        ++ (checkAllCollisions pl g.enemies g.obstacles).projectileObstacleHits.map
          Prod.fst).dedup,
      i < pl.projectiles.length := by
  intro i hi
  rw [List.mem_dedup, List.mem_append] at hi
  rcases hi with hi | hi
  · obtain ⟨⟨a, b⟩, hmem, rfl⟩ := List.mem_map.1 hi
    obtain ⟨pr, en, hsome, -, -⟩ := (mem_projectileEnemyHits pl g.enemies g.obstacles a b).1 hmem
    exact (List.getElem?_eq_some.1 hsome).1
  · obtain ⟨⟨a, b⟩, hmem, rfl⟩ := List.mem_map.1 hi
    obtain ⟨pr, ob, hsome, -, -⟩ :=
      (mem_projectileObstacleHits pl g.enemies g.obstacles a b).1 hmem
    exact (List.getElem?_eq_some.1 hsome).1

/-- Helper for C3: every obstacle index recorded in the hit list is in
range of the obstacle array. -/
theorem hit_obstacle_idx_lt (pl : Player) (g : Game) :
    ∀ j ∈ ((checkAllCollisions pl g.enemies g.obstacles).projectileObstacleHits.map
        Prod.snd).dedup,
      j < g.obstacles.length := by
  intro j hj
  rw [List.mem_dedup] at hj
  obtain ⟨⟨a, b⟩, hmem, rfl⟩ := List.mem_map.1 hj
  obtain ⟨pr, ob, -, hsome, -⟩ :=
    (mem_projectileObstacleHits pl g.enemies g.obstacles a b).1 hmem
  exact (List.getElem?_eq_some.1 hsome).1

/-- C3 amended: within the tick, (1) every projectile surviving the
player pass is alive and inside the 500 bound — expired and
out-of-bounds projectiles are removed in that same pass; (2) collision
handling removes exactly the distinct hit projectiles from the player
array and (3) exactly the distinct hit obstacles from the obstacle
array; but (4) it never removes an enemy — it only applies damage — so
an enemy whose health reaches zero from a projectile hit this tick
stays in the enemy collection until the start of the next tick, whose
enemy pass removes it and awards its 100 points. -/
theorem claim3_amended (dt dx dy : ℚ) (p : Player) (pl : Player) (g : Game) :
    (∀ pr ∈ (Player.update dt dx dy p).projectiles,
      pr.isAlive = true ∧ pr.isOffScreen = false) ∧
    (∃ pl', (Game.handleCollisions pl g).player = some pl' ∧
      pl'.projectiles.length = pl.projectiles.length -
        (((checkAllCollisions pl g.enemies g.obstacles).projectileEnemyHits.map Prod.fst
          ++ (checkAllCollisions pl g.enemies g.obstacles).projectileObstacleHits.map
            Prod.fst).dedup).length) ∧
    ((Game.handleCollisions pl g).obstacles.length = g.obstacles.length -
      (((checkAllCollisions pl g.enemies g.obstacles).projectileObstacleHits.map
        Prod.snd).dedup).length) ∧
    ((Game.handleCollisions pl g).enemies.length = g.enemies.length) := by
  refine ⟨?_, ?_, ?_, ?_⟩
  · intro pr hpr
    simp only [Player.update, Player.updateProjectiles] at hpr
    have h := (List.mem_filter.1 hpr).2
    rw [Bool.and_eq_true, Bool.not_eq_true'] at h
    exact h
  · refine ⟨_, rfl, ?_⟩
    have hnd : (((checkAllCollisions pl g.enemies g.obstacles).projectileEnemyHits.map
        Prod.fst ++ (checkAllCollisions pl g.enemies g.obstacles).projectileObstacleHits.map
          Prod.fst).dedup).Nodup := List.nodup_dedup _
    have hp := sortDesc_perm (((checkAllCollisions pl g.enemies
      g.obstacles).projectileEnemyHits.map Prod.fst
      ++ (checkAllCollisions pl g.enemies g.obstacles).projectileObstacleHits.map
        Prod.fst).dedup)
    rw [length_foldl_eraseIdx _ _ (sortDesc_strict _ hnd)
      (fun i hi => hit_projectile_idx_lt pl g i (hp.mem_iff.1 hi)), hp.length_eq]
  · have hnd : ((((checkAllCollisions pl g.enemies g.obstacles).projectileObstacleHits.map
        Prod.snd).dedup)).Nodup := List.nodup_dedup _
    have hp := sortDesc_perm (((checkAllCollisions pl g.enemies
      g.obstacles).projectileObstacleHits.map Prod.snd).dedup)
    simp only [Game.handleCollisions]
    rw [length_foldl_eraseIdx _ _ (sortDesc_strict _ hnd)
      (fun j hj => hit_obstacle_idx_lt pl g j (hp.mem_iff.1 hj)), hp.length_eq]
  · simp only [Game.handleCollisions]
    exact length_foldl_damage _ _

/-- C3 amended witness: the single-projectile, single-enemy session at
a zero-length tick; the surviving projectile of the player pass is
alive and on screen, and collision handling removes exactly the one
distinct hit projectile, exactly the distinct hit obstacles, and no
enemy. -/
theorem claim3_witness :
    ((⟨⟨0, 4, 0⟩, ⟨0, 30, 0⟩, 1 / 10⟩ : Projectile).isAlive = true ∧
      (⟨⟨0, 4, 0⟩, ⟨0, 30, 0⟩, 1 / 10⟩ : Projectile).isOffScreen = false) ∧
    (∃ pl', (Game.handleCollisions cex3Player cex3Game).player = some pl' ∧
      pl'.projectiles.length = cex3Player.projectiles.length -
        (((checkAllCollisions cex3Player cex3Game.enemies
            cex3Game.obstacles).projectileEnemyHits.map Prod.fst
          ++ (checkAllCollisions cex3Player cex3Game.enemies
            cex3Game.obstacles).projectileObstacleHits.map Prod.fst).dedup).length) ∧
    ((Game.handleCollisions cex3Player cex3Game).obstacles.length =
      cex3Game.obstacles.length -
        (((checkAllCollisions cex3Player cex3Game.enemies
          cex3Game.obstacles).projectileObstacleHits.map Prod.snd).dedup).length) ∧
    ((Game.handleCollisions cex3Player cex3Game).enemies.length =
      cex3Game.enemies.length) := by
  have h := claim3_amended 0 0 0 cex3Player cex3Player cex3Game
  refine ⟨h.1 ⟨⟨0, 4, 0⟩, ⟨0, 30, 0⟩, 1 / 10⟩ ?_, h.2.1, h.2.2.1, h.2.2.2⟩
  norm_num [Player.update, Player.updateProjectiles, cex3Player, Player.init,
    Projectile.update, Projectile.isAlive, Projectile.isOffScreen, distGt, distSq, clamp]

/-- C2 counterexample: with one life and two enemies touching the
player, a single tick takes the lives counter to minus one — the source
never floors it at zero — and the session transitions to game over with
the negative value still stored. -/
theorem claim2_counterexample :
    (Game.update 0 zeroOracle cex2Game).lives = -1 ∧
    (Game.update 0 zeroOracle cex2Game).gameState = GState.gameOver := by
  norm_num [Game.update, Game.enemyPhase, Game.obstaclePhase, Game.handleCollisions,
    Game.spawnPhase, Game.difficultyPhase, Game.endCheck, Game.gameOver,
    Game.spawnEnemy, Game.spawnObstacle, Game.increaseDifficulty,
    cex2Game, cex2Enemy, Game.init, Player.init, Player.update,
    Player.updateProjectiles, zeroOracle, mapIdxFrom, Enemy.update, Enemy.isAlive,
    Enemy.takeDamage, checkAllCollisions, enumRev, List.enum, List.enumFrom,
    checkPlayerEnemyCollision, checkPlayerObstacleCollision,
    checkProjectileEnemyCollision, checkProjectileObstacleCollision,
    distLt, distGt, distSq, Obstacle.update, Obstacle.isOffScreen, Obstacle.getRadius,
    clamp, sortDesc, sortDescInsert, modifyIdx, List.filterMap_cons, List.dedup]

/-- C3 counterexample: a projectile hit brings the enemy to zero health
during the tick; the hit projectile is indeed removed from the player
array within that tick (the player is back to the constructor-fresh
state), yet at the end of the same tick the dead enemy is still in the
enemy collection and no score has been awarded; only the following tick
removes it and adds the 100 points. This contradicts the claim that an
enemy whose health reaches zero is removed, with its score award, in
the same tick. -/
theorem claim3_counterexample :
    (Game.update 0 zeroOracle cex3Game).enemies = [⟨⟨0, 4, 0⟩, 0, 0, true⟩] ∧
    (Game.update 0 zeroOracle cex3Game).player = some Player.init ∧
    (Game.update 0 zeroOracle cex3Game).score = 0 ∧
    (Game.update 0 zeroOracle cex3Game).gameState = GState.playing ∧
    (Game.update 0 zeroOracle (Game.update 0 zeroOracle cex3Game)).enemies = [] ∧
    (Game.update 0 zeroOracle (Game.update 0 zeroOracle cex3Game)).score = 100 := by
  norm_num [Game.update, Game.enemyPhase, Game.obstaclePhase, Game.handleCollisions,
    Game.spawnPhase, Game.difficultyPhase, Game.endCheck, Game.gameOver,
    Game.spawnEnemy, Game.spawnObstacle, Game.increaseDifficulty,
    cex3Game, cex3Enemy, cex3Player, Game.init, Player.init, Player.update,
    Player.updateProjectiles, zeroOracle, mapIdxFrom, Enemy.update, Enemy.isAlive,
    Enemy.takeDamage, checkAllCollisions, enumRev, List.enum, List.enumFrom,
    checkPlayerEnemyCollision, checkPlayerObstacleCollision,
    checkProjectileEnemyCollision, checkProjectileObstacleCollision,
    Projectile.update, Projectile.isAlive, Projectile.isOffScreen,
    distLt, distGt, distSq, Obstacle.update, Obstacle.isOffScreen, Obstacle.getRadius,
    clamp, sortDesc, sortDescInsert, modifyIdx, List.filterMap_cons, List.dedup]

/-- The game over check leaves the enemy collection unchanged. -/
theorem endCheck_enemies (g : Game) :
    (Game.endCheck g).enemies = g.enemies := by
  rw [Game.endCheck]
  split <;> rfl

/-- The game over check leaves the obstacle collection unchanged. -/
theorem endCheck_obstacles (g : Game) :
    (Game.endCheck g).obstacles = g.obstacles := by
  rw [Game.endCheck]
  split <;> rfl

/-- Updating the constructor-fresh player with dt = 0 and zero heading
returns it unchanged. -/
theorem player_init_update_zero :
    Player.update 0 0 0 Player.init = Player.init := by
  norm_num [Player.update, Player.init, Player.updateProjectiles, clamp]

/-- C5 amended: an obstacle beyond the 600 radius is destroyed and
removed by the tick, but an enemy is never removed for leaving the
world bounds — whatever its position, even arbitrarily far outside
every bound the program mentions, it survives the tick; enemies are
removed only by health exhaustion (or by start/cleanup). -/
theorem claim5_amended (pE pO : Vec3)
    (hO : (600 : ℚ) ^ 2 < distSq pO ⟨0, 0, 0⟩) :
    (Game.update 0 zeroOracle (cex5Game pE)).enemies.length = 1 ∧
    (Game.update 0 zeroOracle (cex5ObsGame pO)).obstacles = [] := by
  constructor
  · norm_num [Game.update, Game.enemyPhase, Game.obstaclePhase, Game.handleCollisions,
      Game.spawnPhase, Game.difficultyPhase, endCheck_enemies,
      cex5Game, Game.init, zeroOracle, mapIdxFrom, Enemy.update, Enemy.isAlive,
      checkAllCollisions, enumRev, List.enum, List.enumFrom,
      player_init_update_zero,
      sortDesc, sortDescInsert, modifyIdx, List.filterMap_cons, List.dedup]
  · norm_num [Game.update, Game.enemyPhase, Game.obstaclePhase, Game.handleCollisions,
      Game.spawnPhase, Game.difficultyPhase, endCheck_obstacles,
      cex5ObsGame, Game.init, zeroOracle, mapIdxFrom,
      Obstacle.update, Obstacle.isOffScreen, distGt, hO,
      checkAllCollisions, enumRev, List.enum, List.enumFrom,
      player_init_update_zero,
      sortDesc, sortDescInsert, modifyIdx, List.filterMap_cons, List.dedup]
    norm_num at hO
    exact hO

/-- C5 amended witness at concrete far positions. -/
theorem claim5_witness :
    (Game.update 0 zeroOracle (cex5Game ⟨1, 2, 3⟩)).enemies.length = 1 ∧
    (Game.update 0 zeroOracle (cex5ObsGame ⟨0, 0, 601⟩)).obstacles = [] :=
  claim5_amended ⟨1, 2, 3⟩ ⟨0, 0, 601⟩ (by norm_num [distSq])

/-- C5 counterexample: side by side at the same far position, the
obstacle is removed by the tick but the enemy is not: the claim that
enemies, like obstacles, are destroyed on leaving the world bounds is
false — Game.update has no bounds check for enemies at all. -/
theorem claim5_counterexample :
    (Game.update 0 zeroOracle (cex5Game ⟨0, 0, 10000⟩)).enemies =
      [⟨⟨0, 0, 10000⟩, 2, 0, true⟩] ∧
    (Game.update 0 zeroOracle (cex5ObsGame ⟨0, 0, 10000⟩)).obstacles = [] := by
  norm_num [Game.update, Game.enemyPhase, Game.obstaclePhase, Game.handleCollisions,
    Game.spawnPhase, Game.difficultyPhase, Game.endCheck, Game.gameOver,
    cex5Game, cex5ObsGame, Game.init, Player.init, Player.update,
    Player.updateProjectiles, zeroOracle, mapIdxFrom, Enemy.update, Enemy.isAlive,
    Enemy.takeDamage, checkAllCollisions, enumRev, List.enum, List.enumFrom,
    checkPlayerEnemyCollision, checkPlayerObstacleCollision,
    checkProjectileEnemyCollision, checkProjectileObstacleCollision,
    distLt, distGt, distSq, Obstacle.update, Obstacle.isOffScreen, Obstacle.getRadius,
    clamp, sortDesc, sortDescInsert, modifyIdx, List.filterMap_cons, List.dedup]

/-- Player.update never changes the key state. -/
theorem thrustIter_keys (dt dx dy : ℚ) (p : Player) (n : ℕ) :
    (thrustIter dt dx dy p n).keys = p.keys := by
  induction n with
  | zero => rfl
  | succ k ih =>
    rw [thrustIter, show ∀ q : Player, (Player.update dt dx dy q).keys = q.keys
      from fun _ => rfl, ih]

/-- Velocity recurrence of Player.update under forward thrust only:
add the thrust impulse along the heading, then multiply every component
by the friction factor 0.92. -/
theorem update_vel_wOnly (dt dx dy : ℚ) (p : Player) (hk : p.keys = wOnlyKeys) :
    (Player.update dt dx dy p).vel =
      ⟨(p.vel.x + dx * 30 * dt) * (23 / 25),
       (p.vel.y + dy * 30 * dt) * (23 / 25),
       p.vel.z * (23 / 25)⟩ := by
  simp [Player.update, hk, wOnlyKeys]

/-- Single-component bound used for C8: a damped geometric term stays
inside the triangle-inequality bound, independently of n. -/
theorem geom_component_sq_le (L c q : ℚ) (h0 : 0 ≤ q) (h1 : q ≤ 1) :
    (L + q * c) ^ 2 ≤ (|L| + |c|) ^ 2 := by
  have h2 : |L + q * c| ≤ |L| + |c| := by
    calc |L + q * c| ≤ |L| + |q * c| := abs_add _ _
      _ = |L| + q * |c| := by rw [abs_mul, abs_of_nonneg h0]
      _ ≤ |L| + 1 * |c| := by nlinarith [abs_nonneg c]
      _ = |L| + |c| := by ring
  calc (L + q * c) ^ 2 = |L + q * c| ^ 2 := (sq_abs _).symm
    _ ≤ (|L| + |c|) ^ 2 := by
        exact pow_le_pow_left₀ (abs_nonneg _) h2 2

/-- C8: under constant forward thrust at any fixed dt, the velocity
after n ticks is exactly the terminal velocity 345·dt·(dx, dy, 0) plus
the initial offset damped by the geometric factor 0.92 to the n, so the
speed converges to that finite terminal value; in particular the
squared velocity magnitude is bounded for all n by a bound independent
of n, and never diverges. The terminal value 345·dt is
friction·thrust·dt/(1 − friction) with friction 0.92 and thrust 30. -/
theorem claim8_bounded_velocity (dt dx dy : ℚ) (p : Player) (n : ℕ)
    (hdt : 0 < dt) (hdir : dx ^ 2 + dy ^ 2 = 1) (hk : p.keys = wOnlyKeys) :
    (thrustIter dt dx dy p n).vel =
      ⟨345 * dt * dx + (23 / 25) ^ n * (p.vel.x - 345 * dt * dx),
       345 * dt * dy + (23 / 25) ^ n * (p.vel.y - 345 * dt * dy),
       (23 / 25) ^ n * p.vel.z⟩ ∧
    ((thrustIter dt dx dy p n).vel.x) ^ 2 + ((thrustIter dt dx dy p n).vel.y) ^ 2 +
        ((thrustIter dt dx dy p n).vel.z) ^ 2 ≤
      (|345 * dt * dx| + |p.vel.x - 345 * dt * dx|) ^ 2 +
        (|345 * dt * dy| + |p.vel.y - 345 * dt * dy|) ^ 2 + |p.vel.z| ^ 2 := by
  have hcf : (thrustIter dt dx dy p n).vel =
      ⟨345 * dt * dx + (23 / 25) ^ n * (p.vel.x - 345 * dt * dx),
       345 * dt * dy + (23 / 25) ^ n * (p.vel.y - 345 * dt * dy),
       (23 / 25) ^ n * p.vel.z⟩ := by
    induction n with
    | zero =>
      show p.vel = _
      ext <;> simp <;> ring
    | succ k ih =>
      rw [thrustIter, update_vel_wOnly dt dx dy _ (by rw [thrustIter_keys]; exact hk), ih]
      ext <;> simp [pow_succ] <;> ring
  have h0 : (0 : ℚ) ≤ (23 / 25) ^ n := by positivity
  have h1 : ((23 : ℚ) / 25) ^ n ≤ 1 := by
    apply pow_le_one₀ <;> norm_num
  refine ⟨hcf, ?_⟩
  rw [hcf]
  have hx := geom_component_sq_le (345 * dt * dx) (p.vel.x - 345 * dt * dx) _ h0 h1
  have hy := geom_component_sq_le (345 * dt * dy) (p.vel.y - 345 * dt * dy) _ h0 h1
  have hz := geom_component_sq_le 0 p.vel.z _ h0 h1
  simp only [abs_zero, zero_add] at hz
  exact add_le_add (add_le_add hx hy) hz

/-- C8 witness: two ticks of a tenth of a second at heading angle zero
from the fresh thrusting player. -/
theorem claim8_witness :
    (thrustIter (1 / 10) 0 1 c8Player 2).vel =
      ⟨345 * (1 / 10) * 0 + (23 / 25) ^ 2 * (c8Player.vel.x - 345 * (1 / 10) * 0),
       345 * (1 / 10) * 1 + (23 / 25) ^ 2 * (c8Player.vel.y - 345 * (1 / 10) * 1),
       (23 / 25) ^ 2 * c8Player.vel.z⟩ ∧
    ((thrustIter (1 / 10) 0 1 c8Player 2).vel.x) ^ 2 +
        ((thrustIter (1 / 10) 0 1 c8Player 2).vel.y) ^ 2 +
        ((thrustIter (1 / 10) 0 1 c8Player 2).vel.z) ^ 2 ≤
      (|345 * (1 / 10) * 0| + |c8Player.vel.x - 345 * (1 / 10) * 0|) ^ 2 +
        (|345 * (1 / 10) * 1| + |c8Player.vel.y - 345 * (1 / 10) * 1|) ^ 2 +
        |c8Player.vel.z| ^ 2 :=
  claim8_bounded_velocity (1 / 10) 0 1 c8Player 2 (by norm_num) (by norm_num) rfl
